import Mathlib

/-
Shallow embedding of yamn-proxy (src/yp.go): a loopback relay that sniffs
each inbound connection, routing HTTP requests through a route table and
all other traffic byte-for-byte to a fixed SMTP upstream, with all egress
dialed through a SOCKS5 proxy.
-/

namespace YamnProxy

/-- Embeds Go strings.HasPrefix s pre: true iff pre is a leading
subsequence of s. -/
def goHasPre : List Char → List Char → Bool
  | _, [] => true
  | [], _ :: _ => false
  | c :: s, p :: ps => c == p && goHasPre s ps

inductive SessionKind where
  | HTTP
  | Opaque
  deriving DecidableEq

/-- Embeds the sniff condition at src/yp.go line 168: the 4-byte peek is
tested with strings.HasPrefix against the literals "GET ", "POST ",
"HEAD " and "CONNECT" exactly as written in the source. -/
def isHTTPPeek (peek : List Char) : Bool :=
  goHasPre peek ("GET ".toList) || goHasPre peek ("POST ".toList) ||
  goHasPre peek ("HEAD ".toList) || goHasPre peek ("CONNECT".toList)

/-- Embeds the fill loop behind bufio.Reader.Peek(4): the client stream is
a list of chunks (one chunk per successful Read); the reader keeps reading
whole chunks into its buffer until at least 4 bytes are buffered or the
stream is exhausted. Chunks are assumed to fit the 4096-byte bufio buffer.
Returns (buffered bytes, chunks not yet read from the raw connection). -/
def fillTo4 : List Char → List (List Char) → List Char × List (List Char)
  | buf, [] => (buf, [])
  | buf, c :: cs => if 4 ≤ buf.length then (buf, c :: cs) else fillTo4 (buf ++ c) cs

structure SniffState where
  peeked : Option (List Char)
  buffered : List Char
  rest : List (List Char)

/-- Embeds reader.Peek(4) at src/yp.go line 161: peeking succeeds with the
first 4 buffered bytes when the stream delivers at least 4 bytes, and
fails (peeked = none) when the stream ends first; a failed peek also
models the classification deadline expiring. `buffered` holds whatever the
bufio reader consumed from the raw connection, `rest` what is still
unread on the raw connection. -/
def sniff (chunks : List (List Char)) : SniffState :=
  let fr := fillTo4 [] chunks
  { peeked := if 4 ≤ fr.1.length then some (fr.1.take 4) else none
    buffered := fr.1
    rest := fr.2 }

/-- Embeds the classification in handleConnection (src/yp.go lines
160-175): peek failure or a non-matching peek selects the Opaque (SMTP)
path, a matching peek selects the HTTP path. -/
def classify (chunks : List (List Char)) : SessionKind :=
  match (sniff chunks).peeked with
  | none => SessionKind.Opaque
  | some p => if isHTTPPeek p then SessionKind.HTTP else SessionKind.Opaque

/-- Egress route of an upstream dial; the source constructs every dialer
with proxy.SOCKS5 (src/yp.go lines 203 and 238) and never dials direct. -/
inductive Egress where
  | viaSocks5
  | direct
  deriving DecidableEq

/-- Outcome of one opaque (SMTP) relay session, handleSMTP at src/yp.go
lines 230-298. `clientOut` is what is written to the client connection,
`upstreamOut` what is written to the upstream connection. -/
structure SmtpRun where
  clientOut : List Char
  upstreamOut : List Char
  dialAttempts : List Egress
  targetClosed : Bool

/-- Embeds handleSMTP (src/yp.go lines 230-298). `dialerOk` is the
proxy.SOCKS5 constructor outcome (line 238), `dialOk` the single dial to
smtpTarget through the SOCKS5 proxy (lines 249-257; both the context
branch and the fallback branch go through the same SOCKS5 dialer).
`clientIn` is the byte stream readable from the raw client connection,
`upstreamIn` the stream the upstream sends. On success the two io.Copy
loops (lines 281-290) deliver each stream to the other side in order. -/
def handleSMTP (dialerOk : Bool) (dialOk : Bool)
    (clientIn upstreamIn : List Char) : SmtpRun :=
  if !dialerOk then
    { clientOut := [], upstreamOut := [], dialAttempts := [], targetClosed := false }
  else if !dialOk then
    { clientOut := [], upstreamOut := [], dialAttempts := [Egress.viaSocks5]
      targetClosed := false }
  else
    { clientOut := upstreamIn, upstreamOut := clientIn
      dialAttempts := [Egress.viaSocks5], targetClosed := true }

/-- Parsed inbound HTTP request, the fields of Go http.Request that
handleHTTP reads: Host, URL.Path (query and fragment are separate URL
fields, never read by the routing code), Method, Header and Body. -/
structure Request where
  method : String
  host : String
  path : String
  query : String
  fragment : String
  headers : List (String × String)
  body : List Char

/-- Embeds src/yp.go line 186: requestedURL := req.Host + req.URL.Path. -/
def routeKey (req : Request) : String := req.host ++ req.path

/-- Outbound request built at src/yp.go lines 196-201: http.NewRequest
with the original method and body, targeting the mapped URL, then
newReq.Header = req.Header.Clone(). -/
structure OutboundRequest where
  method : String
  url : String
  headers : List (String × String)
  body : List Char

def mkOutbound (req : Request) (target : String) : OutboundRequest :=
  { method := req.method, url := target, headers := req.headers, body := req.body }

/-- Upstream HTTP response as Go sees it: Status (e.g. "200 OK"),
StatusCode, Header, Body. -/
structure Response where
  statusCode : Nat
  status : String
  headers : List (String × String)
  body : List Char

def writeHeaders : List (String × String) → String
  | [] => ""
  | (k, v) :: rest => k ++ ": " ++ v ++ "\r\n" ++ writeHeaders rest

/-- Embeds resp.Write(client) at src/yp.go line 222: the wire form of the
full response - status line, headers, blank line, body. -/
def writeResponse (r : Response) : List Char :=
  ("HTTP/1.1 " ++ r.status ++ "\r\n" ++ writeHeaders r.headers ++ "\r\n").toList ++ r.body

/-- Default route table, src/yp.go lines 39-42 (replaceable wholesale by
the YAML config; theorems quantify over an arbitrary table). -/
def httpTargets : String → Option String := fun key =>
  if key = "dummy.tld/pubring.mix" then some ("https://www.harmsk.com/yamn/pubring.mix")
  else if key = "dummy.tld/mlist2.txt" then some ("https://www.harmsk.com/yamn/mlist2.txt")
  else none

def smtpTarget : String := "mailrelay.sec3.net:2525"

/-- Outcome of one HTTP session: bytes written to the client connection
and the outbound requests actually sent upstream (with their egress
route). -/
structure HttpRun where
  clientOut : List Char
  sent : List (OutboundRequest × Egress)

/-- Embeds handleHTTP (src/yp.go lines 178-228). `parsed` is the
http.ReadRequest outcome (none on parse error, line 179), `newReqOk` the
http.NewRequest outcome (line 196), `dialerOk` the proxy.SOCKS5
constructor outcome (line 203), `doReq` the single httpClient.Do over the
SOCKS5-dialing transport (lines 209-215; none models a dial or transport
failure). Every early return writes nothing to the client; only a
successful round trip writes the response wire form (line 222). -/
def handleHTTP (table : String → Option String) (parsed : Option Request)
    (newReqOk dialerOk : Bool) (doReq : OutboundRequest → Option Response) : HttpRun :=
  match parsed with
  | none => { clientOut := [], sent := [] }
  | some req =>
    match table (routeKey req) with
    | none => { clientOut := [], sent := [] }
    | some target =>
      if !newReqOk then { clientOut := [], sent := [] }
      else if !dialerOk then { clientOut := [], sent := [] }
      else
        let out := mkOutbound req target
        match doReq out with
        | none => { clientOut := [], sent := [(out, Egress.viaSocks5)] }
        | some resp => { clientOut := writeResponse resp, sent := [(out, Egress.viaSocks5)] }

/-- Outcome of one whole accepted connection, handleConnection at
src/yp.go lines 152-176 composed with the chosen path. -/
structure ConnRun where
  kind : SessionKind
  clientOut : List Char
  upstreamOut : List Char
  dialAttempts : List Egress
  sent : List (OutboundRequest × Egress)
  clientClosed : Bool

/-- Branches of handleConnection: on peek failure or a non-HTTP peek the
source calls handleSMTP(client, ...) with the RAW connection (lines 164
and 174), so the relay only ever reads `rest` - the bytes the bufio
reader buffered during the peek stay in the discarded reader. The HTTP
path instead passes the buffered reader (line 171), so parsing sees
buffered ++ rest. -/
def dispatch (chunks : List (List Char)) (smtpDialerOk smtpDialOk : Bool)
    (upstreamIn : List Char) (parseReq : List Char → Option Request)
    (newReqOk httpDialerOk : Bool) (table : String → Option String)
    (doReq : OutboundRequest → Option Response) : ConnRun :=
  let s := sniff chunks
  match s.peeked with
  | none =>
    let r := handleSMTP smtpDialerOk smtpDialOk s.rest.flatten upstreamIn
    { kind := SessionKind.Opaque, clientOut := r.clientOut, upstreamOut := r.upstreamOut
      dialAttempts := r.dialAttempts, sent := [], clientClosed := false }
  | some p =>
    if isHTTPPeek p then
      let h := handleHTTP table (parseReq (s.buffered ++ s.rest.flatten)) newReqOk httpDialerOk doReq
      { kind := SessionKind.HTTP, clientOut := h.clientOut, upstreamOut := []
        dialAttempts := [], sent := h.sent, clientClosed := false }
    else
      let r := handleSMTP smtpDialerOk smtpDialOk s.rest.flatten upstreamIn
      { kind := SessionKind.Opaque, clientOut := r.clientOut, upstreamOut := r.upstreamOut
        dialAttempts := r.dialAttempts, sent := [], clientClosed := false }

/-- Embeds handleConnection (src/yp.go lines 152-176): defer client.Close()
at line 153 runs on every exit path, so the client connection is closed
whatever the dispatch did. -/
def handleConnection (chunks : List (List Char)) (smtpDialerOk smtpDialOk : Bool)
    (upstreamIn : List Char) (parseReq : List Char → Option Request)
    (newReqOk httpDialerOk : Bool) (table : String → Option String)
    (doReq : OutboundRequest → Option Response) : ConnRun :=
  { dispatch chunks smtpDialerOk smtpDialOk upstreamIn parseReq newReqOk httpDialerOk table doReq
    with clientClosed := true }

/-- Buffered Go channel: a send on a channel whose buffer is below
capacity enqueues without blocking; a send on a full buffer would block. -/
structure Chan (α : Type) where
  capacity : Nat
  buf : List α

/-- Returns the channel after the send and whether the sender would have
blocked. -/
def Chan.send {α : Type} (ch : Chan α) (v : α) : Chan α × Bool :=
  if ch.buf.length < ch.capacity then ({ ch with buf := ch.buf ++ [v] }, false)
  else (ch, true)

/-- Returns the received value (none on an empty buffer) and the channel
after the receive. -/
def Chan.recv {α : Type} (ch : Chan α) : Option α × Chan α :=
  match ch.buf with
  | [] => (none, ch)
  | v :: rest => (some v, { ch with buf := rest })

/-- Observable shape of the completion protocol of one opaque relay. -/
structure RelayCompletion where
  chanCapacity : Nat
  send1Blocked : Bool
  send2Blocked : Bool
  firstReceived : Option (Option String)
  outcomesPendingAtExit : Nat
  clientClosed : Bool
  targetClosed : Bool

/-- Embeds the completion protocol of handleSMTP (src/yp.go lines
277-297): errChan := make(chan error, 2); each copy goroutine sends its
outcome (an error or nil, modelled as Option String) once; the handler
performs exactly one receive (line 293) and returns, leaving the other
outcome pending, and the deferred closes (lines 153 and 263) then shut
both connections. Sending both outcomes before the single receive is the
worst case for the senders, so the blocked flags bound every
interleaving. -/
def relayCompletion (e1 e2 : Option String) : RelayCompletion :=
  let ch0 : Chan (Option String) := { capacity := 2, buf := [] }
  let s1 := ch0.send e1
  let s2 := s1.1.send e2
  let r := s2.1.recv
  { chanCapacity := 2, send1Blocked := s1.2, send2Blocked := s2.2
    firstReceived := r.1, outcomesPendingAtExit := r.2.buf.length
    clientClosed := true, targetClosed := true }

/-- Connection-level deadline values used by the source: time.Time`{}`
(no deadline), now + InitialTimeout (line 157), now + IoTimeout
(line 232). -/
inductive Deadline where
  | unset
  | initialWindow
  | ioWindow
  deriving DecidableEq

inductive DlStage where
  | classifyPeek
  | transfer
  deriving DecidableEq

/-- One observable event on the client connection, in program order. -/
inductive Ev where
  | setDeadline (d : Deadline)
  | stage (s : DlStage)
  | closeConn

/-- Event trace of an HTTP session: handleConnection sets the initial
deadline (line 157), peeks (line 161), calls handleHTTP (line 171) which
performs the whole request parse, upstream round trip and response write
WITHOUT any SetDeadline call of its own (lines 178-228), and only then do
the deferred SetDeadline(time.Time`{}`) (line 158) and Close (line 153)
run, in that LIFO order. -/
def httpEvents : List Ev :=
  [ Ev.setDeadline Deadline.initialWindow,
    Ev.stage DlStage.classifyPeek,
    Ev.stage DlStage.transfer,
    Ev.setDeadline Deadline.unset,
    Ev.closeConn ]

/-- Event trace of an Opaque session: handleConnection sets the initial
deadline (line 157), peeks (line 161), calls handleSMTP (line 164 or 174)
whose first statement re-arms the deadline to the I/O window (line 232);
the copy loops run under that window; then handleSMTP's deferred clear
(line 233), handleConnection's deferred clear (line 158) and the deferred
Close (line 153) run. -/
def smtpEvents : List Ev :=
  [ Ev.setDeadline Deadline.initialWindow,
    Ev.stage DlStage.classifyPeek,
    Ev.setDeadline Deadline.ioWindow,
    Ev.stage DlStage.transfer,
    Ev.setDeadline Deadline.unset,
    Ev.setDeadline Deadline.unset,
    Ev.closeConn ]

def deadlineDuringAux : Deadline → List Ev → DlStage → Deadline
  | cur, [], _ => cur
  | _, Ev.setDeadline d :: evs, st => deadlineDuringAux d evs st
  | cur, Ev.stage s :: evs, st => if s = st then cur else deadlineDuringAux cur evs st
  | cur, Ev.closeConn :: evs, st => deadlineDuringAux cur evs st

/-- Deadline in force on the connection when the given stage runs. -/
def deadlineDuring (evs : List Ev) (st : DlStage) : Deadline :=
  deadlineDuringAux Deadline.unset evs st

/-- True iff a SetDeadline(unset) occurs after the classification peek
and before the transfer stage. -/
def clearedBetween : Bool → List Ev → Bool
  | _, [] => false
  | _, Ev.stage DlStage.classifyPeek :: evs => clearedBetween true evs
  | seen, Ev.setDeadline Deadline.unset :: evs =>
    if seen then true else clearedBetween seen evs
  | seen, Ev.stage DlStage.transfer :: evs =>
    if seen then false else clearedBetween seen evs
  | seen, _ :: evs => clearedBetween seen evs

def deadlineAtClose : Deadline → List Ev → Deadline
  | cur, [] => cur
  | _, Ev.setDeadline d :: evs => deadlineAtClose d evs
  | cur, Ev.closeConn :: _ => cur
  | cur, Ev.stage _ :: evs => deadlineAtClose cur evs

/-- Outcome of the listener goroutine in main (src/yp.go lines 56-73). -/
inductive ServerOutcome where
  | fatal (msg : String)
  | ran (handled : Nat) (acceptErrorsLogged : Nat)
  deriving DecidableEq

/-- Embeds the accept loop (src/yp.go lines 65-72) over a finite trace of
accept results: an accept error is logged and the loop continues with the
next result; a successful accept is handed to handleConnection. Returns
(connections handled, accept errors logged). -/
def acceptLoop : List (Except String Unit) → Nat × Nat
  | [] => (0, 0)
  | Except.error _ :: rest => let r := acceptLoop rest; (r.1, r.2 + 1)
  | Except.ok _ :: rest => let r := acceptLoop rest; (r.1 + 1, r.2)

def countOk : List (Except String Unit) → Nat
  | [] => 0
  | Except.ok _ :: rest => countOk rest + 1
  | Except.error _ :: rest => countOk rest

def countErr : List (Except String Unit) → Nat
  | [] => 0
  | Except.ok _ :: rest => countErr rest
  | Except.error _ :: rest => countErr rest + 1

/-- Embeds the listener goroutine (src/yp.go lines 56-73): net.Listen is
attempted exactly once; on failure log.Fatal terminates the whole process
(no retry, no accept loop); on success the accept loop runs over the
accept trace. -/
def runServer (bind : Except String Unit) (accepts : List (Except String Unit)) :
    ServerOutcome :=
  match bind with
  | Except.error e => ServerOutcome.fatal e
  | Except.ok _ => let r := acceptLoop accepts; ServerOutcome.ran r.1 r.2

/-- Two concrete requests agreeing on host and path, differing in query
and fragment: both key to "dummy.tld/pubring.mix". -/
def reqPlain : Request :=
  { method := "GET", host := "dummy.tld", path := "/pubring.mix", query := ""
    fragment := "", headers := [("Host", "dummy.tld")], body := [] }

def reqWithQuery : Request :=
  { method := "GET", host := "dummy.tld", path := "/pubring.mix", query := "v=1&x=2"
    fragment := "top", headers := [("Host", "dummy.tld")], body := [] }

/-- A request whose key is absent from the default route table. -/
def reqMiss : Request :=
  { method := "GET", host := "example.org", path := "/nope", query := ""
    fragment := "", headers := [("Host", "example.org")], body := [] }

/-- A concrete upstream response used by witnesses. -/
def respOK : Response :=
  { statusCode := 200, status := "200 OK"
    headers := [("Content-Type", "application/octet-stream")]
    body := "mixdata".toList }

lemma fillTo4_flatten (cs : List (List Char)) :
    ∀ buf : List Char, (fillTo4 buf cs).1 ++ (fillTo4 buf cs).2.flatten = buf ++ cs.flatten := by
  induction cs with
  | nil => intro buf; simp [fillTo4]
  | cons c cs ih =>
    intro buf
    simp only [fillTo4]
    by_cases h : 4 ≤ buf.length
    · simp [h]
    · simp [h, ih (buf ++ c), List.append_assoc]

lemma acceptLoop_eq (l : List (Except String Unit)) :
    acceptLoop l = (countOk l, countErr l) := by
  induction l with
  | nil => rfl
  | cons x rest ih => cases x <;> simp [acceptLoop, countOk, countErr, ih]

/-- Claim C1: the source tests the 4-byte peek against the 5-byte literals
"POST " and "HEAD " and the 7-byte literal "CONNECT" (src/yp.go line 168),
which a 4-byte string can never start with, so a connection opening with
POST, HEAD or CONNECT is classified Opaque; only a peek equal to "GET "
yields HTTP — refuting the claim at the inputs POST, HEAD, CONNECT. -/
theorem sniff_accepts_only_GET :
    classify [("GET /pubring.mix HTTP/1.1\r\n".toList)] = SessionKind.HTTP ∧
    classify [("POST /mlist2.txt HTTP/1.1\r\n".toList)] = SessionKind.Opaque ∧
    classify [("HEAD /pubring.mix HTTP/1.1\r\n".toList)] = SessionKind.Opaque ∧
    classify [("CONNECT dummy.tld:443 HTTP/1.1\r\n".toList)] = SessionKind.Opaque := by
  decide

/-- Claim C2: on the Opaque path handleConnection hands handleSMTP the raw
client connection (src/yp.go lines 164 and 174), not the bufio reader, so
the bytes consumed into the reader's buffer during the classification peek
are never forwarded: a client that sends "EHLO" and then " yamn\r\n" in
two reads has only " yamn\r\n" delivered upstream — refuting the claim
that every byte, including the peeked ones, is delivered. -/
theorem opaque_relay_drops_peeked_bytes :
    (handleConnection [("EHLO".toList), (" yamn\r\n".toList)] true true []
        (fun _ => none) true true httpTargets (fun _ => none)).kind = SessionKind.Opaque ∧
    (handleConnection [("EHLO".toList), (" yamn\r\n".toList)] true true []
        (fun _ => none) true true httpTargets (fun _ => none)).upstreamOut
      = (" yamn\r\n".toList) ∧
    (" yamn\r\n".toList) ≠ ("EHLO".toList) ++ (" yamn\r\n".toList) := by
  decide

/-- Claim C3: for a request whose host+path key maps to a target and whose
upstream round trip succeeds, exactly one outbound request is sent,
through the SOCKS5 proxy, with the original method, body and a copy of
the original headers, targeting the mapped URL; and the client receives
precisely the wire form of the full upstream response. -/
theorem http_hit_forwards_and_relays (table : String → Option String) (req : Request)
    (doReq : OutboundRequest → Option Response) (target : String) (resp : Response)
    (hhit : table (routeKey req) = some target)
    (hresp : doReq (mkOutbound req target) = some resp) :
    (handleHTTP table (some req) true true doReq).sent
      = [(mkOutbound req target, Egress.viaSocks5)] ∧
    (mkOutbound req target).method = req.method ∧
    (mkOutbound req target).body = req.body ∧
    (mkOutbound req target).headers = req.headers ∧
    (mkOutbound req target).url = target ∧
    (handleHTTP table (some req) true true doReq).clientOut = writeResponse resp := by
  simp only [mkOutbound] at hresp
  simp [handleHTTP, hhit, hresp, mkOutbound]

/-- Witness for C3 at the default route table and a concrete request and
response. -/
theorem http_hit_forwards_and_relays_witness :
    (handleHTTP httpTargets (some reqPlain) true true (fun _ => some respOK)).sent
      = [(mkOutbound reqPlain ("https://www.harmsk.com/yamn/pubring.mix"), Egress.viaSocks5)] ∧
    (mkOutbound reqPlain ("https://www.harmsk.com/yamn/pubring.mix")).method = reqPlain.method ∧
    (mkOutbound reqPlain ("https://www.harmsk.com/yamn/pubring.mix")).body = reqPlain.body ∧
    (mkOutbound reqPlain ("https://www.harmsk.com/yamn/pubring.mix")).headers = reqPlain.headers ∧
    (mkOutbound reqPlain ("https://www.harmsk.com/yamn/pubring.mix")).url
      = "https://www.harmsk.com/yamn/pubring.mix" ∧
    (handleHTTP httpTargets (some reqPlain) true true (fun _ => some respOK)).clientOut
      = writeResponse respOK :=
  http_hit_forwards_and_relays httpTargets reqPlain (fun _ => some respOK)
    ("https://www.harmsk.com/yamn/pubring.mix") respOK (by decide) rfl

/-- Claim C4: a parsed request whose host+path key is absent from the
route table ends the session with no bytes written to the client and no
outbound request sent to any upstream. -/
theorem http_miss_writes_nothing (table : String → Option String) (req : Request)
    (newReqOk dialerOk : Bool) (doReq : OutboundRequest → Option Response)
    (hmiss : table (routeKey req) = none) :
    (handleHTTP table (some req) newReqOk dialerOk doReq).clientOut = [] ∧
    (handleHTTP table (some req) newReqOk dialerOk doReq).sent = [] := by
  simp [handleHTTP, hmiss]

/-- Witness for C4 at the default route table and an unmapped request. -/
theorem http_miss_writes_nothing_witness :
    httpTargets (routeKey reqMiss) = none ∧
    ((handleHTTP httpTargets (some reqMiss) true true (fun _ => some respOK)).clientOut = [] ∧
     (handleHTTP httpTargets (some reqMiss) true true (fun _ => some respOK)).sent = []) :=
  ⟨by decide,
   http_miss_writes_nothing httpTargets reqMiss true true (fun _ => some respOK) (by decide)⟩

/-- Claim C5 counterexample: on neither path is the deadline cleared
between the classification peek and the hand-off (the clear at src/yp.go
line 158 is deferred to handler exit), and the HTTP path performs no
SetDeadline of its own, so its whole transfer runs under the stale short
classification deadline — refuting the claim on the HTTP path. -/
theorem deadline_not_cleared_before_handoff :
    clearedBetween false httpEvents = false ∧
    clearedBetween false smtpEvents = false ∧
    deadlineDuring httpEvents DlStage.transfer = Deadline.initialWindow ∧
    Deadline.initialWindow ≠ Deadline.unset := by
  decide

/-- Claim C5 as amended: the deadline is cleared only by deferred calls
when the session handler returns, just before the connection is closed,
never between classification and hand-off; the Opaque path re-arms the
long I/O deadline as its first action so its transfer runs under the I/O
window, while the HTTP path applies no deadline of its own and its
transfer runs under the stale short classification deadline. -/
theorem deadline_policy_as_implemented :
    deadlineDuring httpEvents DlStage.classifyPeek = Deadline.initialWindow ∧
    deadlineDuring smtpEvents DlStage.classifyPeek = Deadline.initialWindow ∧
    deadlineDuring smtpEvents DlStage.transfer = Deadline.ioWindow ∧
    deadlineDuring httpEvents DlStage.transfer = Deadline.initialWindow ∧
    clearedBetween false httpEvents = false ∧
    clearedBetween false smtpEvents = false ∧
    deadlineAtClose Deadline.unset httpEvents = Deadline.unset ∧
    deadlineAtClose Deadline.unset smtpEvents = Deadline.unset := by
  decide

/-- Claim C6: the completion channel has capacity two so neither copy
direction blocks when reporting its outcome; the relay performs exactly
one receive and exits as soon as the first outcome arrives, leaving the
second outcome pending, and the deferred cleanup closes both
connections. -/
theorem relay_completion_channel_policy (e1 e2 : Option String) :
    (relayCompletion e1 e2).chanCapacity = 2 ∧
    (relayCompletion e1 e2).send1Blocked = false ∧
    (relayCompletion e1 e2).send2Blocked = false ∧
    (relayCompletion e1 e2).firstReceived = some e1 ∧
    (relayCompletion e1 e2).outcomesPendingAtExit = 1 ∧
    (relayCompletion e1 e2).clientClosed = true ∧
    (relayCompletion e1 e2).targetClosed = true :=
  ⟨rfl, rfl, rfl, rfl, rfl, rfl, rfl⟩

/-- Claim C7: when the single SOCKS5-proxied dial to the upstream fails,
the Opaque path writes nothing to either connection and made exactly one
proxied attempt; the HTTP path writes nothing to the client and sent
exactly one proxied outbound request; and the client connection is closed
by handleConnection's deferred Close on every path. -/
theorem dial_failure_closes_client_cleanly
    (clientIn upstreamIn : List Char) (table : String → Option String)
    (req : Request) (target : String)
    (hhit : table (routeKey req) = some target) :
    ((handleSMTP true false clientIn upstreamIn).clientOut = [] ∧
     (handleSMTP true false clientIn upstreamIn).upstreamOut = [] ∧
     (handleSMTP true false clientIn upstreamIn).dialAttempts = [Egress.viaSocks5]) ∧
    ((handleHTTP table (some req) true true (fun _ => none)).clientOut = [] ∧
     (handleHTTP table (some req) true true (fun _ => none)).sent
        = [(mkOutbound req target, Egress.viaSocks5)]) ∧
    (handleConnection [clientIn] true false upstreamIn (fun _ => none) true true table
        (fun _ => none)).clientClosed = true := by
  refine ⟨⟨rfl, rfl, rfl⟩, ?_, rfl⟩
  simp [handleHTTP, hhit, mkOutbound]

/-- Witness for C7 at the default route table and concrete streams. -/
theorem dial_failure_closes_client_cleanly_witness :
    ((handleSMTP true false ("MAIL FROM".toList) ("220 ready".toList)).clientOut = [] ∧
     (handleSMTP true false ("MAIL FROM".toList) ("220 ready".toList)).upstreamOut = [] ∧
     (handleSMTP true false ("MAIL FROM".toList) ("220 ready".toList)).dialAttempts
        = [Egress.viaSocks5]) ∧
    ((handleHTTP httpTargets (some reqPlain) true true (fun _ => none)).clientOut = [] ∧
     (handleHTTP httpTargets (some reqPlain) true true (fun _ => none)).sent
        = [(mkOutbound reqPlain ("https://www.harmsk.com/yamn/pubring.mix"), Egress.viaSocks5)]) ∧
    (handleConnection [("MAIL FROM".toList)] true false ("220 ready".toList) (fun _ => none)
        true true httpTargets (fun _ => none)).clientClosed = true :=
  dial_failure_closes_client_cleanly ("MAIL FROM".toList) ("220 ready".toList) httpTargets
    reqPlain ("https://www.harmsk.com/yamn/pubring.mix") (by decide)

/-- Claim C8: a bind failure is fatal to the process before any accept
runs, while an accept error is only counted (logged) and the loop goes on
to handle every later successful accept. -/
theorem bind_fatal_accept_continues (e : String) (accepts : List (Except String Unit)) :
    runServer (Except.error e) accepts = ServerOutcome.fatal e ∧
    runServer (Except.ok ()) accepts
      = ServerOutcome.ran (countOk accepts) (countErr accepts) ∧
    runServer (Except.ok ()) (Except.error e :: accepts)
      = ServerOutcome.ran (countOk accepts) (countErr accepts + 1) := by
  refine ⟨rfl, ?_, ?_⟩ <;> simp [runServer, acceptLoop, acceptLoop_eq, countOk, countErr]

/-- Claim C9: a connection whose whole stream is shorter than four bytes
makes the peek fail, and the session is classified Opaque. -/
theorem short_stream_classified_opaque (chunks : List (List Char))
    (h : chunks.flatten.length < 4) : classify chunks = SessionKind.Opaque := by
  have key : (fillTo4 [] chunks).1.length ≤ chunks.flatten.length := by
    have h2 := fillTo4_flatten chunks []
    calc (fillTo4 [] chunks).1.length
        ≤ (fillTo4 [] chunks).1.length + (fillTo4 [] chunks).2.flatten.length :=
          Nat.le_add_right _ _
      _ = ((fillTo4 [] chunks).1 ++ (fillTo4 [] chunks).2.flatten).length :=
          (List.length_append _ _).symm
      _ = chunks.flatten.length := by rw [h2, List.nil_append]
  have hn : ¬ 4 ≤ (fillTo4 [] chunks).1.length := by omega
  have hp : (sniff chunks).peeked = none := by
    unfold sniff
    simp [hn]
  unfold classify
  rw [hp]

/-- Witness for C9: three bytes "GET" — a proper prefix of an HTTP method
token — still classify Opaque. -/
theorem short_stream_classified_opaque_witness :
    ([("GET".toList)] : List (List Char)).flatten.length < 4 ∧
    classify [("GET".toList)] = SessionKind.Opaque :=
  ⟨by decide, short_stream_classified_opaque [("GET".toList)] (by decide)⟩

/-- Claim C10: the route lookup key is req.Host ++ req.URL.Path, so two
requests agreeing on host and path — whatever their query strings or
fragments — produce the same key and the same lookup result in any route
table. -/
theorem route_key_ignores_query (table : String → Option String) (r1 r2 : Request)
    (hh : r1.host = r2.host) (hp : r1.path = r2.path) :
    routeKey r1 = routeKey r2 ∧ table (routeKey r1) = table (routeKey r2) := by
  have hk : routeKey r1 = routeKey r2 := by unfold routeKey; rw [hh, hp]
  exact ⟨hk, by rw [hk]⟩

/-- Witness for C10: two concrete requests differing only in query and
fragment share the key "dummy.tld/pubring.mix" and its routing result. -/
theorem route_key_ignores_query_witness :
    reqPlain.host = reqWithQuery.host ∧ reqPlain.path = reqWithQuery.path ∧
    reqPlain.query ≠ reqWithQuery.query ∧
    (routeKey reqPlain = routeKey reqWithQuery ∧
     httpTargets (routeKey reqPlain) = httpTargets (routeKey reqWithQuery)) :=
  ⟨rfl, rfl, by decide, route_key_ignores_query httpTargets reqPlain reqWithQuery rfl rfl⟩

end YamnProxy
